import Mathlib

/-!
# RTMA core definitions (`src/pyrtma/core_defs/core_defs.h`)

A shallow embedding of the constants, typedefs and structure declarations of
`core_defs.h`, together with the properties of the wire format that follow
from them.

* The `#define` constants are natural-number definitions carrying the names of
  the header.
* A C structure declaration is embedded as the list of its members, each with
  its element type and element count, in declaration order.  Sizes and offsets
  are computed by the usual natural-alignment rule (every member is placed at
  the next multiple of its alignment, the structure is padded to a multiple of
  its strictest member alignment) for the data model `char` = 1, `short` = 2,
  `int` = 4, `double` = 8 bytes.
* Values of `RTMA_MSG_HEADER` and of the message data structures are Lean
  structures with one field per C member; integers are `Int`, a `double` is
  its 64-bit pattern.
-/

set_option autoImplicit false

namespace RTMA

/-! ## Constants (core_defs.h, lines 2-41) -/

def MAX_MODULES : Nat := 200
def DYN_MOD_ID_START : Nat := 100
def MAX_HOSTS : Nat := 5
def MAX_MESSAGE_TYPES : Nat := 10000
def MIN_STREAM_TYPE : Nat := 9000
def MAX_TIMERS : Nat := 100
def MAX_INTERNAL_TIMERS : Nat := 20
def MAX_RTMA_MSG_TYPE : Nat := 99
def MAX_RTMA_MODULE_ID : Nat := 9
def MAX_LOGGER_FILENAME_LENGTH : Nat := 256
def MAX_CONTIGUOUS_MESSAGE_DATA : Nat := 9000

def MID_MESSAGE_MANAGER : Nat := 0
def MID_COMMAND_MODULE : Nat := 1
def MID_APPLICATION_MODULE : Nat := 2
def MID_NETWORK_RELAY : Nat := 3
def MID_STATUS_MODULE : Nat := 4
def MID_QUICKLOGGER : Nat := 5
def HID_LOCAL_HOST : Nat := 0
def HID_ALL_HOSTS : Nat := 0x7FFF

def ALL_MESSAGE_TYPES : Nat := 0x7FFFFFFF

def MT_EXIT : Nat := 0
def MT_KILL : Nat := 1
def MT_ACKNOWLEDGE : Nat := 2
def MT_CONNECT : Nat := 13
def MT_DISCONNECT : Nat := 14
def MT_SUBSCRIBE : Nat := 15
def MT_UNSUBSCRIBE : Nat := 16
def MT_PAUSE_SUBSCRIPTION : Nat := 85
def MT_RESUME_SUBSCRIPTION : Nat := 86
def MT_FAIL_SUBSCRIBE : Nat := 6
def MT_FAILED_MESSAGE : Nat := 8
def MT_FORCE_DISCONNECT : Nat := 82
def MT_MODULE_READY : Nat := 26
def MT_SAVE_MESSAGE_LOG : Nat := 56
def MT_TIMING_MESSAGE : Nat := 80

/-- The fifteen `MT_*` control message type numbers, in the order in which the
header defines them. -/
def controlMessageTypes : List Nat :=
  [MT_EXIT, MT_KILL, MT_ACKNOWLEDGE, MT_CONNECT, MT_DISCONNECT, MT_SUBSCRIBE,
   MT_UNSUBSCRIBE, MT_PAUSE_SUBSCRIPTION, MT_RESUME_SUBSCRIPTION, MT_FAIL_SUBSCRIBE,
   MT_FAILED_MESSAGE, MT_FORCE_DISCONNECT, MT_MODULE_READY, MT_SAVE_MESSAGE_LOG,
   MT_TIMING_MESSAGE]

/-- The six `MID_*` internal module IDs, in the order of the header. -/
def internalModuleIds : List Nat :=
  [MID_MESSAGE_MANAGER, MID_COMMAND_MODULE, MID_APPLICATION_MODULE, MID_NETWORK_RELAY,
   MID_STATUS_MODULE, MID_QUICKLOGGER]

/-! ## C types and structure layout -/

/-- The scalar C types that occur in the header. -/
inductive CScalar
  | char
  | short
  | ushort
  | int
  | double
  deriving DecidableEq, Repr

/-- Size in bytes of a scalar (`short` = 16 bits, `int` = 32 bits,
`double` = 64 bits). -/
def CScalar.size : CScalar → Nat
  | .char => 1
  | .short => 2
  | .ushort => 2
  | .int => 4
  | .double => 8

/-- Largest value of a signed scalar of the given size: `2^(8*size-1) - 1`. -/
def CScalar.maxSigned (t : CScalar) : Nat := 2 ^ (8 * t.size - 1) - 1

/-- Smallest value of a signed scalar of the given size: `-2^(8*size-1)`. -/
def CScalar.minSigned (t : CScalar) : Int := - (2 ^ (8 * t.size - 1) : Int)

/-- Typedefs of core_defs.h, lines 43-46. -/
def MODULE_ID : CScalar := .short
def HOST_ID : CScalar := .short
def MSG_TYPE : CScalar := .int
def MSG_COUNT : CScalar := .int

/-- A member of a C structure: its name, the size and alignment of one
element, and the number of elements (1 unless the member is an array). -/
structure Member where
  name : String
  elemSize : Nat
  align : Nat
  count : Nat
  deriving DecidableEq, Repr

/-- Number of bytes a member occupies. -/
def Member.size (m : Member) : Nat := m.elemSize * m.count

/-- A member of scalar type: naturally aligned on its own size. -/
def field (name : String) (t : CScalar) : Member :=
  { name := name, elemSize := t.size, align := t.size, count := 1 }

/-- An array member `t name[n]`. -/
def arrayField (name : String) (t : CScalar) (n : Nat) : Member :=
  { name := name, elemSize := t.size, align := t.size, count := n }

/-- Round `off` up to the next multiple of `a`. -/
def alignUp (off a : Nat) : Nat := (off + a - 1) / a * a

/-- Offsets of the members of a structure laid out from offset `off`. -/
def offsetsFrom : Nat → List Member → List Nat
  | _, [] => []
  | off, m :: ms => alignUp off m.align :: offsetsFrom (alignUp off m.align + m.size) ms

/-- First free byte after the last member, laying out from offset `off`. -/
def endFrom : Nat → List Member → Nat
  | off, [] => off
  | off, m :: ms => endFrom (alignUp off m.align + m.size) ms

/-- Member offsets of a structure. -/
def structOffsets (ms : List Member) : List Nat := offsetsFrom 0 ms

/-- Alignment of a structure: the strictest alignment of its members. -/
def structAlign (ms : List Member) : Nat := ms.foldl (fun a m => max a m.align) 1

/-- The `sizeof` of a structure: end of the last member rounded up to the
structure's alignment. -/
def structSize (ms : List Member) : Nat := alignUp (endFrom 0 ms) (structAlign ms)

/-- Offsets the members would have with no padding at all. -/
def packedOffsetsFrom : Nat → List Member → List Nat
  | _, [] => []
  | off, m :: ms => off :: packedOffsetsFrom (off + m.size) ms

/-- Padding bytes inserted before each member, laying out from offset `off`. -/
def paddingsFrom : Nat → List Member → List Nat
  | _, [] => []
  | off, m :: ms => (alignUp off m.align - off) :: paddingsFrom (alignUp off m.align + m.size) ms

/-- A member whose type is itself a structure. -/
def structField (name : String) (ms : List Member) : Member :=
  { name := name, elemSize := structSize ms, align := structAlign ms, count := 1 }

namespace Layout

/-- Declaration of `RTMA_MSG_HEADER` (core_defs.h, lines 49-62). -/
def RTMA_MSG_HEADER : List Member :=
  [ field "msg_type" MSG_TYPE,
    field "msg_count" MSG_COUNT,
    field "send_time" .double,
    field "recv_time" .double,
    field "src_host_id" HOST_ID,
    field "src_mod_id" MODULE_ID,
    field "dest_host_id" HOST_ID,
    field "dest_mod_id" MODULE_ID,
    field "num_data_bytes" .int,
    field "remaining_bytes" .int,
    field "is_dynamic" .int,
    field "reserved" .int ]

/-- Declaration of `MDF_FAILED_MESSAGE` (core_defs.h, lines 91-96). -/
def MDF_FAILED_MESSAGE : List Member :=
  [ field "dest_mod_id" MODULE_ID,
    field "reserved" .short,
    field "time_of_failure" .double,
    structField "msg_header" RTMA_MSG_HEADER ]

/-- Member `pathname` of `MDF_SAVE_MESSAGE_LOG`. -/
def MDF_SAVE_MESSAGE_LOG.pathname : Member :=
  arrayField "pathname" .char MAX_LOGGER_FILENAME_LENGTH

/-- Declaration of `MDF_SAVE_MESSAGE_LOG` (core_defs.h, lines 106-109). -/
def MDF_SAVE_MESSAGE_LOG : List Member :=
  [ MDF_SAVE_MESSAGE_LOG.pathname,
    field "pathname_length" .int ]

/-- Member `timing` of `MDF_TIMING_MESSAGE`. -/
def MDF_TIMING_MESSAGE.timing : Member :=
  arrayField "timing" .ushort MAX_MESSAGE_TYPES

/-- Member `ModulePID` of `MDF_TIMING_MESSAGE`. -/
def MDF_TIMING_MESSAGE.ModulePID : Member :=
  arrayField "ModulePID" .int MAX_MODULES

/-- Declaration of `MDF_TIMING_MESSAGE` (core_defs.h, lines 111-115). -/
def MDF_TIMING_MESSAGE : List Member :=
  [ MDF_TIMING_MESSAGE.timing,
    MDF_TIMING_MESSAGE.ModulePID,
    field "send_time" .double ]

end Layout

/-! ## Values of the structures -/

/-- A byte of payload or of a `char` buffer. -/
abbrev Byte := Nat

/-- A value of `RTMA_MSG_HEADER` (core_defs.h, lines 49-62): one field per
member, in declaration order.  The two `double` members are kept as their
64-bit patterns. -/
structure RTMA_MSG_HEADER where
  msg_type : Int
  msg_count : Int
  send_time : Nat
  recv_time : Nat
  src_host_id : Int
  src_mod_id : Int
  dest_host_id : Int
  dest_mod_id : Int
  num_data_bytes : Int
  remaining_bytes : Int
  is_dynamic : Int
  reserved : Int
  deriving DecidableEq, Repr

/-- A value of `MDF_FAILED_MESSAGE` (core_defs.h, lines 91-96); the header is
a member by value. -/
structure MDF_FAILED_MESSAGE where
  dest_mod_id : Int
  reserved : Int
  time_of_failure : Nat
  msg_header : RTMA_MSG_HEADER
  deriving DecidableEq, Repr

/-- The assignment `m.dest_mod_id = v`. -/
def MDF_FAILED_MESSAGE.set_dest_mod_id (m : MDF_FAILED_MESSAGE) (v : Int) :
    MDF_FAILED_MESSAGE := { m with dest_mod_id := v }

/-- The assignment `m.reserved = v`. -/
def MDF_FAILED_MESSAGE.set_reserved (m : MDF_FAILED_MESSAGE) (v : Int) :
    MDF_FAILED_MESSAGE := { m with reserved := v }

/-- The assignment `m.time_of_failure = v`. -/
def MDF_FAILED_MESSAGE.set_time_of_failure (m : MDF_FAILED_MESSAGE) (v : Nat) :
    MDF_FAILED_MESSAGE := { m with time_of_failure := v }

/-- The assignment `m.msg_header = h` (a structure copy). -/
def MDF_FAILED_MESSAGE.set_msg_header (m : MDF_FAILED_MESSAGE) (h : RTMA_MSG_HEADER) :
    MDF_FAILED_MESSAGE := { m with msg_header := h }

/-- A value of `MDF_SAVE_MESSAGE_LOG` (core_defs.h, lines 106-109): the
contents of the `pathname` buffer and the `pathname_length` field. -/
structure MDF_SAVE_MESSAGE_LOG where
  pathname : List Byte
  pathname_length : Int
  deriving DecidableEq, Repr

/-! ## Message types, array indices, value ranges -/

/-- The three classes of real message types. -/
inductive MsgClass
  | control
  | application
  | stream
  deriving DecidableEq, Repr

/-- Modelled from the spec: the classification of a message type of section
4.2 (the classifying function is not part of core_defs.h).  A type is a
control type when `0 <= t <= MAX_RTMA_MSG_TYPE`, an application type when
`MAX_RTMA_MSG_TYPE < t < MIN_STREAM_TYPE`, a stream type when
`MIN_STREAM_TYPE <= t < MAX_MESSAGE_TYPES`. -/
def inClass : MsgClass → Int → Prop
  | .control, t => 0 ≤ t ∧ t ≤ (MAX_RTMA_MSG_TYPE : Int)
  | .application, t => (MAX_RTMA_MSG_TYPE : Int) < t ∧ t < (MIN_STREAM_TYPE : Int)
  | .stream, t => (MIN_STREAM_TYPE : Int) ≤ t ∧ t < (MAX_MESSAGE_TYPES : Int)

instance (c : MsgClass) (t : Int) : Decidable (inClass c t) := by
  cases c <;> unfold inClass <;> infer_instance

/-- The index `i` is within the bounds of the array member `a`. -/
def inBounds (a : Member) (i : Int) : Prop := 0 ≤ i ∧ i < (a.count : Int)

instance (a : Member) (i : Int) : Decidable (inBounds a i) := by
  unfold inBounds; infer_instance

/-- The value `v` is representable in the signed scalar type `t`. -/
def representable (t : CScalar) (v : Int) : Prop := t.minSigned ≤ v ∧ v ≤ (t.maxSigned : Int)

instance (t : CScalar) (v : Int) : Decidable (representable t v) := by
  unfold representable; infer_instance

/-! ## Envelope codec and log-path encoding -/

/-- The error kinds of section 7 of the specification. -/
inductive RtmaError
  | MALFORMED_FRAME
  | FRAGMENT_MISMATCH
  | UNKNOWN_DESTINATION
  | NOT_CONNECTED
  | PATH_TOO_LONG
  deriving DecidableEq, Repr

/-- A physical frame: a header followed by the bytes this frame carries. -/
structure Frame where
  header : RTMA_MSG_HEADER
  data : List Byte
  deriving DecidableEq, Repr

/-- Modelled from the spec: the framing of section 4.1 (the encoder is not
part of core_defs.h).  `rest` is the part of the payload not yet sent and
`total` the size of the whole payload.  When `rest` fits in
`MAX_CONTIGUOUS_MESSAGE_DATA` bytes it is sent in one frame with
`remaining_bytes = 0` and `is_dynamic` false; otherwise a frame with the first
`MAX_CONTIGUOUS_MESSAGE_DATA` bytes is sent, with `is_dynamic` true and
`remaining_bytes` the number of bytes still to come, and the rest follows in
continuation frames.  The last frame of a fragmented message therefore has
`remaining_bytes = 0` and `is_dynamic` false, as in the 20,000-byte scenario
of section 8 ("`is_dynamic=true` on all but the final fragment").  Every
frame carries the total payload size in `num_data_bytes`. -/
def fragments (hdr : RTMA_MSG_HEADER) (total : Nat) (rest : List Byte) : List Frame :=
  if rest.length ≤ MAX_CONTIGUOUS_MESSAGE_DATA then
    [{ header := { hdr with num_data_bytes := total, remaining_bytes := 0, is_dynamic := 0 },
       data := rest }]
  else
    { header := { hdr with
                  num_data_bytes := total,
                  remaining_bytes := ((rest.length - MAX_CONTIGUOUS_MESSAGE_DATA : Nat) : Int),
                  is_dynamic := 1 },
      data := rest.take MAX_CONTIGUOUS_MESSAGE_DATA } ::
      fragments hdr total (rest.drop MAX_CONTIGUOUS_MESSAGE_DATA)
termination_by rest.length
decreasing_by
  simp only [List.length_drop, MAX_CONTIGUOUS_MESSAGE_DATA] at *
  omega

/-- Modelled from the spec: the frames of a logical message with header fields
`hdr` and payload `payload` (section 4.1). -/
def encode (hdr : RTMA_MSG_HEADER) (payload : List Byte) : List Frame :=
  fragments hdr payload.length payload

/-- Concatenation of the payloads of a sequence of frames, in order. -/
def reassemble (frames : List Frame) : List Byte := (frames.map Frame.data).flatten

/-- Number of frames the specification gives for a payload of `L` bytes: one
when `L <= MAX_CONTIGUOUS_MESSAGE_DATA`, else `ceil (L / MAX_CONTIGUOUS_MESSAGE_DATA)`. -/
def frameCount (L : Nat) : Nat :=
  if L ≤ MAX_CONTIGUOUS_MESSAGE_DATA then 1
  else (L + MAX_CONTIGUOUS_MESSAGE_DATA - 1) / MAX_CONTIGUOUS_MESSAGE_DATA

/-- Modelled from the spec: the encoding of a log path into the payload of
`MT_SAVE_MESSAGE_LOG` (section 4.4; the encoder is not part of core_defs.h).
A path longer than the `pathname` buffer is rejected with `PATH_TOO_LONG`;
otherwise the path is copied to the start of the zero-filled buffer and its
length is stored in `pathname_length`. -/
def encodeSaveMessageLog (path : List Byte) : Except RtmaError MDF_SAVE_MESSAGE_LOG :=
  if path.length ≤ Layout.MDF_SAVE_MESSAGE_LOG.pathname.count then
    .ok { pathname := path ++
            List.replicate (Layout.MDF_SAVE_MESSAGE_LOG.pathname.count - path.length) 0,
          pathname_length := (path.length : Int) }
  else
    .error .PATH_TOO_LONG

/-! ## Auxiliary lemmas on the framing -/

theorem fragments_small (hdr : RTMA_MSG_HEADER) (total : Nat) (rest : List Byte)
    (h : rest.length ≤ MAX_CONTIGUOUS_MESSAGE_DATA) :
    fragments hdr total rest =
      [{ header := { hdr with num_data_bytes := total, remaining_bytes := 0, is_dynamic := 0 },
         data := rest }] := by
  rw [fragments, if_pos h]

theorem fragments_large (hdr : RTMA_MSG_HEADER) (total : Nat) (rest : List Byte)
    (h : ¬ rest.length ≤ MAX_CONTIGUOUS_MESSAGE_DATA) :
    fragments hdr total rest =
      { header := { hdr with
                    num_data_bytes := total,
                    remaining_bytes := ((rest.length - MAX_CONTIGUOUS_MESSAGE_DATA : Nat) : Int),
                    is_dynamic := 1 },
        data := rest.take MAX_CONTIGUOUS_MESSAGE_DATA } ::
        fragments hdr total (rest.drop MAX_CONTIGUOUS_MESSAGE_DATA) := by
  rw [fragments, if_neg h]

theorem reassemble_fragments (hdr : RTMA_MSG_HEADER) (total : Nat) :
    ∀ (n : Nat) (rest : List Byte), rest.length = n →
      reassemble (fragments hdr total rest) = rest := by
  intro n
  induction n using Nat.strong_induction_on with
  | _ n ih =>
    intro rest hn
    by_cases h : rest.length ≤ MAX_CONTIGUOUS_MESSAGE_DATA
    · rw [fragments_small hdr total rest h]
      simp [reassemble]
    · rw [fragments_large hdr total rest h]
      have hlt : (rest.drop MAX_CONTIGUOUS_MESSAGE_DATA).length < n := by
        simp only [List.length_drop, MAX_CONTIGUOUS_MESSAGE_DATA] at *
        omega
      have hrec := ih _ hlt (rest.drop MAX_CONTIGUOUS_MESSAGE_DATA) rfl
      simp only [reassemble] at hrec ⊢
      simp only [List.map_cons, List.flatten_cons, hrec, List.take_append_drop]

theorem length_fragments (hdr : RTMA_MSG_HEADER) (total : Nat) :
    ∀ (n : Nat) (rest : List Byte), rest.length = n →
      (fragments hdr total rest).length = frameCount rest.length := by
  intro n
  induction n using Nat.strong_induction_on with
  | _ n ih =>
    intro rest hn
    by_cases h : rest.length ≤ MAX_CONTIGUOUS_MESSAGE_DATA
    · rw [fragments_small hdr total rest h]
      simp [frameCount, h]
    · rw [fragments_large hdr total rest h]
      have hlt : (rest.drop MAX_CONTIGUOUS_MESSAGE_DATA).length < n := by
        simp only [List.length_drop, MAX_CONTIGUOUS_MESSAGE_DATA] at *
        omega
      have hrec := ih _ hlt (rest.drop MAX_CONTIGUOUS_MESSAGE_DATA) rfl
      rw [List.length_cons, hrec, List.length_drop]
      simp only [frameCount, MAX_CONTIGUOUS_MESSAGE_DATA] at *
      split_ifs <;> omega

theorem data_length_fragments (hdr : RTMA_MSG_HEADER) (total : Nat) :
    ∀ (n : Nat) (rest : List Byte), rest.length = n →
      ∀ f ∈ fragments hdr total rest, f.data.length ≤ MAX_CONTIGUOUS_MESSAGE_DATA := by
  intro n
  induction n using Nat.strong_induction_on with
  | _ n ih =>
    intro rest hn f hf
    by_cases h : rest.length ≤ MAX_CONTIGUOUS_MESSAGE_DATA
    · rw [fragments_small hdr total rest h] at hf
      simp only [List.mem_singleton] at hf
      subst hf
      exact h
    · rw [fragments_large hdr total rest h] at hf
      have hlt : (rest.drop MAX_CONTIGUOUS_MESSAGE_DATA).length < n := by
        simp only [List.length_drop, MAX_CONTIGUOUS_MESSAGE_DATA] at *
        omega
      rcases List.mem_cons.mp hf with hf | hf
      · subst hf
        simp only [List.length_take]
        omega
      · exact ih _ hlt (rest.drop MAX_CONTIGUOUS_MESSAGE_DATA) rfl f hf

/-! ## The message header -/

/-- C1: `RTMA_MSG_HEADER` declares exactly the twelve fields msg_type,
msg_count, send_time, recv_time, src_host_id, src_mod_id, dest_host_id,
dest_mod_id, num_data_bytes, remaining_bytes, is_dynamic, reserved, in that
order, with widths 4, 4, 8, 8, 2, 2, 2, 2, 4, 4, 4, 4 bytes (int = 32 bits,
short = 16 bits, double = 64 bits).  Under natural alignment every field's
offset is a multiple of its own size, the natural offsets are the offsets of
the layout without any padding, and the header is exactly 48 bytes, the sum
of its field widths. -/
theorem rtma_msg_header_layout :
    Layout.RTMA_MSG_HEADER.length = 12 ∧
    Layout.RTMA_MSG_HEADER.map Member.name =
      ["msg_type", "msg_count", "send_time", "recv_time", "src_host_id", "src_mod_id",
       "dest_host_id", "dest_mod_id", "num_data_bytes", "remaining_bytes", "is_dynamic",
       "reserved"] ∧
    Layout.RTMA_MSG_HEADER.map Member.size = [4, 4, 8, 8, 2, 2, 2, 2, 4, 4, 4, 4] ∧
    (8 * CScalar.int.size = 32 ∧ 8 * CScalar.short.size = 16 ∧ 8 * CScalar.double.size = 64) ∧
    structOffsets Layout.RTMA_MSG_HEADER = [0, 4, 8, 16, 24, 26, 28, 30, 32, 36, 40, 44] ∧
    (∀ p ∈ List.zip (structOffsets Layout.RTMA_MSG_HEADER)
        (Layout.RTMA_MSG_HEADER.map Member.size), p.1 % p.2 = 0) ∧
    structOffsets Layout.RTMA_MSG_HEADER = packedOffsetsFrom 0 Layout.RTMA_MSG_HEADER ∧
    (∀ p ∈ paddingsFrom 0 Layout.RTMA_MSG_HEADER, p = 0) ∧
    structSize Layout.RTMA_MSG_HEADER = 48 ∧
    structSize Layout.RTMA_MSG_HEADER = (Layout.RTMA_MSG_HEADER.map Member.size).sum := by
  refine ⟨by decide, by decide, by decide, by decide, by decide, by decide, by decide,
    by decide, by decide, by decide⟩

/-! ## Message types -/

/-- C2: classifying a message type by the constants of the header gives
three pairwise disjoint, non-empty ranges, equal to 0..=99, 100..=8999 and
9000..=9999; every integer `t` with `0 <= t < MAX_MESSAGE_TYPES` belongs to
exactly one class and every integer outside that interval belongs to none. -/
theorem message_type_classes :
    (∀ t : Int, inClass .control t ↔ 0 ≤ t ∧ t ≤ 99) ∧
    (∀ t : Int, inClass .application t ↔ 100 ≤ t ∧ t ≤ 8999) ∧
    (∀ t : Int, inClass .stream t ↔ 9000 ≤ t ∧ t ≤ 9999) ∧
    (∀ c : MsgClass, ∃ t : Int, inClass c t) ∧
    (∀ (c d : MsgClass) (t : Int), inClass c t → inClass d t → c = d) ∧
    (∀ t : Int, 0 ≤ t ∧ t < (MAX_MESSAGE_TYPES : Int) → ∃! c : MsgClass, inClass c t) ∧
    (∀ t : Int, ¬ (0 ≤ t ∧ t < (MAX_MESSAGE_TYPES : Int)) → ∀ c : MsgClass, ¬ inClass c t) := by
  have hc : ∀ t : Int, inClass .control t ↔ 0 ≤ t ∧ t ≤ 99 := by
    intro t; simp only [inClass, MAX_RTMA_MSG_TYPE]; omega
  have ha : ∀ t : Int, inClass .application t ↔ 100 ≤ t ∧ t ≤ 8999 := by
    intro t; simp only [inClass, MAX_RTMA_MSG_TYPE, MIN_STREAM_TYPE]; omega
  have hs : ∀ t : Int, inClass .stream t ↔ 9000 ≤ t ∧ t ≤ 9999 := by
    intro t; simp only [inClass, MIN_STREAM_TYPE, MAX_MESSAGE_TYPES]; omega
  have hdisj : ∀ (c d : MsgClass) (t : Int), inClass c t → inClass d t → c = d := by
    intro c d t h1 h2
    cases c <;> cases d <;> first
      | rfl
      | (exfalso
         simp only [hc, ha, hs] at h1 h2
         omega)
  refine ⟨hc, ha, hs, ?_, hdisj, ?_, ?_⟩
  · intro c
    cases c
    · exact ⟨0, by decide⟩
    · exact ⟨100, by decide⟩
    · exact ⟨9000, by decide⟩
  · intro t ht
    simp only [MAX_MESSAGE_TYPES] at ht
    by_cases h1 : t ≤ 99
    · exact ⟨.control, (hc t).2 ⟨ht.1, h1⟩, fun d hd => hdisj d .control t hd ((hc t).2 ⟨ht.1, h1⟩)⟩
    · by_cases h2 : t ≤ 8999
      · have hin : inClass .application t := (ha t).2 ⟨by omega, h2⟩
        exact ⟨.application, hin, fun d hd => hdisj d .application t hd hin⟩
      · have hin : inClass .stream t := (hs t).2 ⟨by omega, by omega⟩
        exact ⟨.stream, hin, fun d hd => hdisj d .stream t hd hin⟩
  · intro t ht c hin
    simp only [MAX_MESSAGE_TYPES] at ht
    cases c <;> simp only [hc, ha, hs] at hin <;> omega

/-- C2, at a concrete input: the application type 5000 belongs to exactly one
class. -/
theorem message_type_classes_witness : ∃! c : MsgClass, inClass c 5000 :=
  message_type_classes.2.2.2.2.2.1 5000 (by decide)

/-- C3: the fifteen control message type numbers of the header are pairwise
distinct, the smallest is 0 and the largest is 86, and each lies in the
reserved control range `0..=MAX_RTMA_MSG_TYPE`, so that none is an
application type, a stream type or `ALL_MESSAGE_TYPES`. -/
theorem control_message_types :
    controlMessageTypes =
      [0, 1, 2, 13, 14, 15, 16, 85, 86, 6, 8, 82, 26, 56, 80] ∧
    controlMessageTypes.length = 15 ∧
    controlMessageTypes.Nodup ∧
    (0 ∈ controlMessageTypes ∧ ∀ t ∈ controlMessageTypes, 0 ≤ t) ∧
    (86 ∈ controlMessageTypes ∧ ∀ t ∈ controlMessageTypes, t ≤ 86) ∧
    (∀ t ∈ controlMessageTypes, 0 ≤ t ∧ t ≤ MAX_RTMA_MSG_TYPE) ∧
    (∀ t ∈ controlMessageTypes, ¬ (MAX_RTMA_MSG_TYPE < t ∧ t < MIN_STREAM_TYPE)) ∧
    (∀ t ∈ controlMessageTypes, ¬ (MIN_STREAM_TYPE ≤ t ∧ t < MAX_MESSAGE_TYPES)) ∧
    (∀ t ∈ controlMessageTypes, t ≠ ALL_MESSAGE_TYPES) := by
  refine ⟨by decide, by decide, by decide, by decide, by decide, by decide, by decide,
    by decide, by decide⟩

/-- C4: `ALL_MESSAGE_TYPES = 0x7FFFFFFF = 2^31 - 1` is the largest value of
the signed 32-bit `MSG_TYPE` and lies outside `0..MAX_MESSAGE_TYPES`;
`HID_ALL_HOSTS = 0x7FFF = 2^15 - 1` is the largest value of the signed 16-bit
`HOST_ID` and lies outside `0..MAX_HOSTS`, while `HID_LOCAL_HOST = 0` lies
inside.  Hence any range check that rejects the host IDs outside
`0..MAX_HOSTS` rejects `HID_ALL_HOSTS`, and the same check with the wildcard
exempted accepts it. -/
theorem wildcards_out_of_range (check : Int → Bool)
    (hcheck : ∀ h : Int, check h = true → 0 ≤ h ∧ h ≤ (MAX_HOSTS : Int)) :
    (ALL_MESSAGE_TYPES = 0x7FFFFFFF ∧ ALL_MESSAGE_TYPES = 2 ^ 31 - 1) ∧
    (8 * MSG_TYPE.size = 32 ∧ ALL_MESSAGE_TYPES = MSG_TYPE.maxSigned) ∧
    (representable MSG_TYPE ALL_MESSAGE_TYPES ∧
      ∀ v : Int, representable MSG_TYPE v → v ≤ (ALL_MESSAGE_TYPES : Int)) ∧
    MAX_MESSAGE_TYPES < ALL_MESSAGE_TYPES ∧
    (HID_ALL_HOSTS = 0x7FFF ∧ HID_ALL_HOSTS = 2 ^ 15 - 1) ∧
    (8 * HOST_ID.size = 16 ∧ HID_ALL_HOSTS = HOST_ID.maxSigned) ∧
    (representable HOST_ID HID_ALL_HOSTS ∧
      ∀ v : Int, representable HOST_ID v → v ≤ (HID_ALL_HOSTS : Int)) ∧
    MAX_HOSTS < HID_ALL_HOSTS ∧
    (HID_LOCAL_HOST = 0 ∧ 0 ≤ HID_LOCAL_HOST ∧ HID_LOCAL_HOST < MAX_HOSTS) ∧
    check (HID_ALL_HOSTS : Int) = false ∧
    (decide (((HID_ALL_HOSTS : Nat) : Int) = (HID_ALL_HOSTS : Int)) ||
      check (HID_ALL_HOSTS : Int)) = true := by
  have hmsg : ∀ v : Int, representable MSG_TYPE v → v ≤ (ALL_MESSAGE_TYPES : Int) := by
    intro v hv
    have h2 := hv.2
    have e : ((MSG_TYPE.maxSigned : Nat) : Int) = ((ALL_MESSAGE_TYPES : Nat) : Int) := by decide
    rw [e] at h2
    exact h2
  have hhost : ∀ v : Int, representable HOST_ID v → v ≤ (HID_ALL_HOSTS : Int) := by
    intro v hv
    have h2 := hv.2
    have e : ((HOST_ID.maxSigned : Nat) : Int) = ((HID_ALL_HOSTS : Nat) : Int) := by decide
    rw [e] at h2
    exact h2
  have hrej : check (HID_ALL_HOSTS : Int) = false := by
    cases hc : check (HID_ALL_HOSTS : Int) with
    | false => rfl
    | true =>
      have := (hcheck _ hc).2
      simp only [HID_ALL_HOSTS, MAX_HOSTS] at this
      omega
  refine ⟨by decide, by decide, ⟨by decide, hmsg⟩, by decide, by decide, by decide,
    ⟨by decide, hhost⟩, by decide, by decide, hrej, ?_⟩
  simp

/-- C4, at a concrete input: the plain range check `0 <= h < MAX_HOSTS`
rejects `HID_ALL_HOSTS`. -/
theorem wildcards_out_of_range_witness :
    (fun h : Int => decide (0 ≤ h ∧ h < (MAX_HOSTS : Int))) (HID_ALL_HOSTS : Int) = false :=
  (wildcards_out_of_range (fun h : Int => decide (0 ≤ h ∧ h < (MAX_HOSTS : Int)))
    (by
      intro h hh
      have hh2 := of_decide_eq_true hh
      exact ⟨hh2.1, le_of_lt hh2.2⟩)).2.2.2.2.2.2.2.2.2.1

/-! ## Module IDs -/

/-- C5: the reserved module IDs `0..=MAX_RTMA_MODULE_ID` (0..=9) and the
dynamic module IDs, which start at `DYN_MOD_ID_START` (100), are disjoint and
the gap between them is exactly 10..=99.  The six `MID_*` roles are pairwise
distinct and lie in the reserved range.  The dynamic IDs that are module slots
are exactly `DYN_MOD_ID_START..MAX_MODULES-1` (100..=199), a non-empty set of
`MAX_MODULES - DYN_MOD_ID_START = 100` values, each representable in the
signed 16-bit `MODULE_ID`. -/
theorem module_id_ranges :
    (MAX_RTMA_MODULE_ID = 9 ∧ DYN_MOD_ID_START = 100 ∧ MAX_MODULES = 200) ∧
    (∀ m : Int, ¬ ((0 ≤ m ∧ m ≤ (MAX_RTMA_MODULE_ID : Int)) ∧ (DYN_MOD_ID_START : Int) ≤ m)) ∧
    (∀ m : Int, ((MAX_RTMA_MODULE_ID : Int) < m ∧ m < (DYN_MOD_ID_START : Int)) ↔
      10 ≤ m ∧ m ≤ 99) ∧
    (∀ m : Int, (0 ≤ m ∧ ¬ (0 ≤ m ∧ m ≤ (MAX_RTMA_MODULE_ID : Int)) ∧
        ¬ (DYN_MOD_ID_START : Int) ≤ m) ↔ 10 ≤ m ∧ m ≤ 99) ∧
    internalModuleIds = [0, 1, 2, 3, 4, 5] ∧
    internalModuleIds.Nodup ∧
    (∀ m ∈ internalModuleIds, 0 ≤ m ∧ m ≤ MAX_RTMA_MODULE_ID) ∧
    (∀ m : Int, ((DYN_MOD_ID_START : Int) ≤ m ∧ 0 ≤ m ∧ m < (MAX_MODULES : Int)) ↔
      100 ≤ m ∧ m ≤ 199) ∧
    (∀ m : Nat, m ∈ Finset.Ico DYN_MOD_ID_START MAX_MODULES ↔
      DYN_MOD_ID_START ≤ m ∧ m < MAX_MODULES) ∧
    (Finset.Ico DYN_MOD_ID_START MAX_MODULES).Nonempty ∧
    (Finset.Ico DYN_MOD_ID_START MAX_MODULES).card = MAX_MODULES - DYN_MOD_ID_START ∧
    MAX_MODULES - DYN_MOD_ID_START = 100 ∧
    (8 * MODULE_ID.size = 16 ∧
      ∀ m : Int, (DYN_MOD_ID_START : Int) ≤ m ∧ m < (MAX_MODULES : Int) →
        representable MODULE_ID m) := by
  refine ⟨by decide, ?_, ?_, ?_, by decide, by decide, by decide, ?_, ?_, ?_, ?_, by decide,
    by decide, ?_⟩
  · intro m; simp only [MAX_RTMA_MODULE_ID, DYN_MOD_ID_START]; omega
  · intro m; simp only [MAX_RTMA_MODULE_ID, DYN_MOD_ID_START]; omega
  · intro m; simp only [MAX_RTMA_MODULE_ID, DYN_MOD_ID_START]; omega
  · intro m; simp only [DYN_MOD_ID_START, MAX_MODULES]; omega
  · intro m; exact Finset.mem_Ico
  · exact ⟨DYN_MOD_ID_START, Finset.mem_Ico.2 ⟨le_refl _, by decide⟩⟩
  · exact Nat.card_Ico _ _
  · intro m hm
    have hmin : MODULE_ID.minSigned = -32768 := by decide
    have hmax : ((MODULE_ID.maxSigned : Nat) : Int) = 32767 := by decide
    simp only [DYN_MOD_ID_START, MAX_MODULES] at hm
    unfold representable
    rw [hmin, hmax]
    omega

/-- C5, at a concrete input: the dynamic module ID 100 is representable in
`MODULE_ID`. -/
theorem module_id_ranges_witness : representable MODULE_ID 100 :=
  module_id_ranges.2.2.2.2.2.2.2.2.2.2.2.2.2 100 (by decide)

/-! ## Fragmentation -/

/-- C6: for every payload, splitting it into frames of at most
`MAX_CONTIGUOUS_MESSAGE_DATA` (9000) bytes and concatenating the frames'
payloads in order gives back the payload; the number of frames is 1 when the
length `L` is at most `MAX_CONTIGUOUS_MESSAGE_DATA` and `ceil (L / 9000)`
otherwise, so that `L` = 0, 9000, 9001 and 27005 give 1, 1, 2 and 4 frames. -/
theorem encode_reassemble (hdr : RTMA_MSG_HEADER) (payload : List Byte) :
    reassemble (encode hdr payload) = payload ∧
    (∀ f ∈ encode hdr payload, f.data.length ≤ MAX_CONTIGUOUS_MESSAGE_DATA) ∧
    (encode hdr payload).length = frameCount payload.length ∧
    (payload.length ≤ MAX_CONTIGUOUS_MESSAGE_DATA → (encode hdr payload).length = 1) ∧
    (MAX_CONTIGUOUS_MESSAGE_DATA < payload.length →
      ((encode hdr payload).length - 1) * MAX_CONTIGUOUS_MESSAGE_DATA < payload.length ∧
      payload.length ≤ (encode hdr payload).length * MAX_CONTIGUOUS_MESSAGE_DATA) ∧
    (frameCount 0 = 1 ∧ frameCount 9000 = 1 ∧ frameCount 9001 = 2 ∧ frameCount 27005 = 4) := by
  have hlen : (encode hdr payload).length = frameCount payload.length :=
    length_fragments hdr payload.length payload.length payload rfl
  refine ⟨reassemble_fragments hdr payload.length payload.length payload rfl,
    data_length_fragments hdr payload.length payload.length payload rfl, hlen, ?_, ?_,
    by decide⟩
  · intro h
    rw [hlen, frameCount, if_pos h]
  · intro h
    rw [hlen]
    simp only [frameCount, MAX_CONTIGUOUS_MESSAGE_DATA] at *
    rw [if_neg (by omega)]
    omega

/-- C6, at a concrete input: a payload of 27005 bytes is sent in 4 frames
whose payloads concatenate to it. -/
theorem encode_reassemble_witness :
    reassemble (encode ⟨5000, 1, 0, 0, 0, 100, 0, 101, 0, 0, 0, 0⟩ (List.replicate 27005 7)) =
        List.replicate 27005 7 ∧
      (encode ⟨5000, 1, 0, 0, 0, 100, 0, 101, 0, 0, 0, 0⟩ (List.replicate 27005 7)).length = 4 :=
  ⟨(encode_reassemble ⟨5000, 1, 0, 0, 0, 100, 0, 101, 0, 0, 0, 0⟩ (List.replicate 27005 7)).1,
    ((encode_reassemble ⟨5000, 1, 0, 0, 0, 100, 0, 101, 0, 0, 0, 0⟩
      (List.replicate 27005 7)).2.2.1).trans
      (by rw [List.length_replicate]; decide)⟩

/-! ## Control and diagnostic payloads -/

/-- C7, as stated, fails: the size of `MDF_TIMING_MESSAGE` does not stay
within `MAX_CONTIGUOUS_MESSAGE_DATA`. -/
theorem timing_message_exceeds_threshold :
    ¬ (structSize Layout.MDF_TIMING_MESSAGE ≤ MAX_CONTIGUOUS_MESSAGE_DATA) := by
  decide

/-- C7, amended: `MDF_TIMING_MESSAGE` is a fixed-size structure of
`2*MAX_MESSAGE_TYPES + 4*MAX_MODULES + 8` = 20808 bytes (one unsigned 16-bit
counter per message type, one 32-bit process ID per module slot, one 64-bit
send time, no padding), which exceeds the contiguous-frame threshold
`MAX_CONTIGUOUS_MESSAGE_DATA` = 9000. -/
theorem timing_message_size :
    Layout.MDF_TIMING_MESSAGE.map Member.name = ["timing", "ModulePID", "send_time"] ∧
    Layout.MDF_TIMING_MESSAGE.map Member.elemSize = [2, 4, 8] ∧
    Layout.MDF_TIMING_MESSAGE.map Member.count = [MAX_MESSAGE_TYPES, MAX_MODULES, 1] ∧
    structOffsets Layout.MDF_TIMING_MESSAGE = packedOffsetsFrom 0 Layout.MDF_TIMING_MESSAGE ∧
    structSize Layout.MDF_TIMING_MESSAGE = 2 * MAX_MESSAGE_TYPES + 4 * MAX_MODULES + 8 ∧
    structSize Layout.MDF_TIMING_MESSAGE = 20808 ∧
    MAX_CONTIGUOUS_MESSAGE_DATA = 9000 ∧
    MAX_CONTIGUOUS_MESSAGE_DATA < structSize Layout.MDF_TIMING_MESSAGE := by
  refine ⟨by decide, by decide, by decide, by decide, by decide, by decide, by decide,
    by decide⟩

/-- C8: encoding a log path into `MDF_SAVE_MESSAGE_LOG` succeeds for every
path of at most `MAX_LOGGER_FILENAME_LENGTH` (256) bytes, a path of exactly
256 bytes filling the `pathname` buffer completely with
`pathname_length = 256`, and fails with `PATH_TOO_LONG` for every path of 257
bytes or more.  On success the first `pathname_length` bytes of `pathname`
are the path, and the buffer always has exactly 256 bytes. -/
theorem save_message_log_path (path : List Byte) :
    (MAX_LOGGER_FILENAME_LENGTH = 256 ∧
      Layout.MDF_SAVE_MESSAGE_LOG.pathname.size = MAX_LOGGER_FILENAME_LENGTH) ∧
    (path.length ≤ MAX_LOGGER_FILENAME_LENGTH →
      ∃ m : MDF_SAVE_MESSAGE_LOG, encodeSaveMessageLog path = .ok m ∧
        m.pathname_length = (path.length : Int) ∧
        m.pathname.length = MAX_LOGGER_FILENAME_LENGTH ∧
        m.pathname.take m.pathname_length.toNat = path) ∧
    (path.length = MAX_LOGGER_FILENAME_LENGTH →
      encodeSaveMessageLog path = .ok { pathname := path, pathname_length := 256 }) ∧
    (257 ≤ path.length → encodeSaveMessageLog path = .error .PATH_TOO_LONG) ∧
    (∀ m : MDF_SAVE_MESSAGE_LOG, encodeSaveMessageLog path = .ok m →
      path.length ≤ MAX_LOGGER_FILENAME_LENGTH ∧
      m.pathname.length = MAX_LOGGER_FILENAME_LENGTH) := by
  have hcount : Layout.MDF_SAVE_MESSAGE_LOG.pathname.count = 256 := by decide
  have hmax : MAX_LOGGER_FILENAME_LENGTH = 256 := by decide
  refine ⟨⟨by decide, by decide⟩, ?_, ?_, ?_, ?_⟩
  · intro h
    rw [hmax] at h
    refine ⟨_, by rw [encodeSaveMessageLog, hcount, if_pos h], rfl, ?_, ?_⟩
    · simp only [List.length_append, List.length_replicate, hmax]
      omega
    · simp
  · intro h
    rw [hmax] at h
    rw [encodeSaveMessageLog, hcount, if_pos (le_of_eq h), h]
    simp [h]
  · intro h
    rw [encodeSaveMessageLog, hcount, if_neg (by omega)]
  · intro m hm
    rw [encodeSaveMessageLog, hcount] at hm
    by_cases h : path.length ≤ 256
    · rw [if_pos h] at hm
      have hm2 := Except.ok.inj hm
      subst hm2
      refine ⟨by rw [hmax]; exact h, ?_⟩
      simp only [List.length_append, List.length_replicate, hmax]
      omega
    · rw [if_neg h] at hm
      cases hm

/-- C8, at concrete inputs: a path of 256 bytes is encoded with
`pathname_length = 256`, a path of 257 bytes is rejected. -/
theorem save_message_log_path_witness :
    encodeSaveMessageLog (List.replicate 256 47) =
        .ok { pathname := List.replicate 256 47, pathname_length := 256 } ∧
      encodeSaveMessageLog (List.replicate 257 47) = .error .PATH_TOO_LONG :=
  ⟨(save_message_log_path (List.replicate 256 47)).2.2.1 (by
      rw [List.length_replicate]; rfl),
    (save_message_log_path (List.replicate 257 47)).2.2.2.1 (by
      rw [List.length_replicate])⟩

/-- C9: every message type `t` with `0 <= t < MAX_MESSAGE_TYPES`, that is
every type of the control, application or stream range, is an in-bounds index
into `timing[MAX_MESSAGE_TYPES]`; every module ID that is reserved
(`0..=MAX_RTMA_MODULE_ID`) or a valid dynamic ID
(`DYN_MOD_ID_START <= m < MAX_MODULES`) is an in-bounds index into
`ModulePID[MAX_MODULES]`; `ALL_MESSAGE_TYPES` is not an index into `timing`. -/
theorem timing_message_slots :
    (Layout.MDF_TIMING_MESSAGE.timing ∈ Layout.MDF_TIMING_MESSAGE ∧
      Layout.MDF_TIMING_MESSAGE.timing.count = MAX_MESSAGE_TYPES) ∧
    (Layout.MDF_TIMING_MESSAGE.ModulePID ∈ Layout.MDF_TIMING_MESSAGE ∧
      Layout.MDF_TIMING_MESSAGE.ModulePID.count = MAX_MODULES) ∧
    (∀ t : Int, 0 ≤ t ∧ t < (MAX_MESSAGE_TYPES : Int) →
      inBounds Layout.MDF_TIMING_MESSAGE.timing t) ∧
    (∀ t : Int, ((0 ≤ t ∧ t ≤ (MAX_RTMA_MSG_TYPE : Int)) ∨
        ((MAX_RTMA_MSG_TYPE : Int) < t ∧ t < (MIN_STREAM_TYPE : Int)) ∨
        ((MIN_STREAM_TYPE : Int) ≤ t ∧ t < (MAX_MESSAGE_TYPES : Int))) →
      inBounds Layout.MDF_TIMING_MESSAGE.timing t) ∧
    (∀ m : Int, ((0 ≤ m ∧ m ≤ (MAX_RTMA_MODULE_ID : Int)) ∨
        ((DYN_MOD_ID_START : Int) ≤ m ∧ m < (MAX_MODULES : Int))) →
      inBounds Layout.MDF_TIMING_MESSAGE.ModulePID m) ∧
    ¬ inBounds Layout.MDF_TIMING_MESSAGE.timing (ALL_MESSAGE_TYPES : Int) := by
  have ht : Layout.MDF_TIMING_MESSAGE.timing.count = 10000 := by decide
  have hp : Layout.MDF_TIMING_MESSAGE.ModulePID.count = 200 := by decide
  refine ⟨⟨by decide, by decide⟩, ⟨by decide, by decide⟩, ?_, ?_, ?_, by decide⟩
  · intro t h
    unfold inBounds
    rw [ht]
    simp only [MAX_MESSAGE_TYPES] at h
    omega
  · intro t h
    unfold inBounds
    rw [ht]
    simp only [MAX_RTMA_MSG_TYPE, MIN_STREAM_TYPE, MAX_MESSAGE_TYPES] at h
    omega
  · intro m h
    unfold inBounds
    rw [hp]
    simp only [MAX_RTMA_MODULE_ID, DYN_MOD_ID_START, MAX_MODULES] at h
    omega

/-- C9, at concrete inputs: the stream type 9999 indexes `timing` and the
dynamic module ID 199 indexes `ModulePID`. -/
theorem timing_message_slots_witness :
    inBounds Layout.MDF_TIMING_MESSAGE.timing 9999 ∧
      inBounds Layout.MDF_TIMING_MESSAGE.ModulePID 199 :=
  ⟨timing_message_slots.2.2.1 9999 (by decide),
    timing_message_slots.2.2.2.2.1 199 (by decide)⟩

/-- C10: `MDF_FAILED_MESSAGE` carries a complete `RTMA_MSG_HEADER` by value:
storing a header `h` in `msg_header` and reading it back gives all twelve
fields of `h` unchanged, whatever is stored in `dest_mod_id`, `reserved` and
`time_of_failure`.  Under natural alignment `dest_mod_id` is at offset 0,
`reserved` at 2, four bytes of padding follow, `time_of_failure` is at 8 and
`msg_header` at 16, for a total of 64 bytes, 16 more than the 48-byte header
and within `MAX_CONTIGUOUS_MESSAGE_DATA`. -/
theorem failed_message_carries_header (m : MDF_FAILED_MESSAGE) (h : RTMA_MSG_HEADER)
    (d r : Int) (t : Nat) :
    (m.set_msg_header h).msg_header = h ∧
    ((m.set_msg_header h).msg_header.msg_type = h.msg_type ∧
      (m.set_msg_header h).msg_header.msg_count = h.msg_count ∧
      (m.set_msg_header h).msg_header.send_time = h.send_time ∧
      (m.set_msg_header h).msg_header.recv_time = h.recv_time ∧
      (m.set_msg_header h).msg_header.src_host_id = h.src_host_id ∧
      (m.set_msg_header h).msg_header.src_mod_id = h.src_mod_id ∧
      (m.set_msg_header h).msg_header.dest_host_id = h.dest_host_id ∧
      (m.set_msg_header h).msg_header.dest_mod_id = h.dest_mod_id ∧
      (m.set_msg_header h).msg_header.num_data_bytes = h.num_data_bytes ∧
      (m.set_msg_header h).msg_header.remaining_bytes = h.remaining_bytes ∧
      (m.set_msg_header h).msg_header.is_dynamic = h.is_dynamic ∧
      (m.set_msg_header h).msg_header.reserved = h.reserved) ∧
    (((m.set_msg_header h).set_dest_mod_id d).msg_header = h ∧
      ((m.set_msg_header h).set_reserved r).msg_header = h ∧
      ((m.set_msg_header h).set_time_of_failure t).msg_header = h ∧
      ((((m.set_dest_mod_id d).set_reserved r).set_time_of_failure t).set_msg_header h).msg_header
        = h) ∧
    (((m.set_msg_header h).dest_mod_id = m.dest_mod_id ∧
      (m.set_msg_header h).reserved = m.reserved ∧
      (m.set_msg_header h).time_of_failure = m.time_of_failure)) ∧
    Layout.MDF_FAILED_MESSAGE.map Member.name =
      ["dest_mod_id", "reserved", "time_of_failure", "msg_header"] ∧
    Layout.MDF_FAILED_MESSAGE.map Member.size = [2, 2, 8, 48] ∧
    structOffsets Layout.MDF_FAILED_MESSAGE = [0, 2, 8, 16] ∧
    paddingsFrom 0 Layout.MDF_FAILED_MESSAGE = [0, 0, 4, 0] ∧
    structSize Layout.MDF_FAILED_MESSAGE = 64 ∧
    structSize Layout.MDF_FAILED_MESSAGE = structSize Layout.RTMA_MSG_HEADER + 16 ∧
    structSize Layout.RTMA_MSG_HEADER = 48 ∧
    structSize Layout.MDF_FAILED_MESSAGE ≤ MAX_CONTIGUOUS_MESSAGE_DATA := by
  refine ⟨rfl, ⟨rfl, rfl, rfl, rfl, rfl, rfl, rfl, rfl, rfl, rfl, rfl, rfl⟩,
    ⟨rfl, rfl, rfl, rfl⟩, ⟨rfl, rfl, rfl⟩, by decide, by decide, by decide, by decide,
    by decide, by decide, by decide, by decide⟩

end RTMA
